import Mathlib

/-!
Verification of the MarkdownPreview conversion pipeline
(`markdown_preview.py`) against its natural-language specification.

The Python source is shallowly embedded: pure string manipulation is
translated to Lean functions over `String` / `List Char`; calls into
external libraries (the YAML parser, `pymdownx` post-processors, the
network, subprocesses, the filesystem) are abstracted as explicit
function parameters or small inductive outcome types; Python
exceptions become `Except`.
-/

/- The module-level sentinel `_CANNOT_CONVERT = 'cannot convert markdown'`. -/
def CANNOT_CONVERT : String := "cannot convert markdown"

/- Python whitespace characters recognised by `str.strip()` (ASCII subset). -/
def isPySpace (c : Char) : Bool :=
  c = ' ' ∨ c = '\t' ∨ c = '\n' ∨ c = '\r' ∨ c = '\x0b' ∨ c = '\x0c'

/- Python `s.strip()` on ASCII whitespace. -/
def pyStrip (s : String) : String :=
  ((s.toList.dropWhile isPySpace).reverse.dropWhile isPySpace).reverse.asString

/-!
Front matter extraction: `Compiler.preprocessor_yaml_frontmatter`.

The regex `^(-{3}\r?\n(?!\r?\n)(.*?)(?<=\n)(?:-{3}|\.{3})\r?\n)` (with
`re.DOTALL`, searched against a text already known to start with
`---`) is modelled directly.  It matches only at the start of the
text: an opening fence `---` followed by an optional `\r` and a `\n`,
not immediately followed by a blank line, then a lazily matched block
(group 2) that must end just after a `\n`, then a closing fence `---`
or `...` followed by `\r?\n`.  The lazy group means the earliest
eligible close fence wins; eligible positions are position 0 and every
position just after a `\n`.
-/

/- The opening fence `-{3}\r?\n`: returns (consumed length, rest). -/
def parseOpenFence : List Char → Option (Nat × List Char)
  | '-' :: '-' :: '-' :: '\r' :: '\n' :: r => some (5, r)
  | '-' :: '-' :: '-' :: '\n' :: r => some (4, r)
  | _ => none

/- The negative lookahead `(?!\r?\n)`: does the text start with a blank line. -/
def startsNL : List Char → Bool
  | '\n' :: _ => true
  | '\r' :: '\n' :: _ => true
  | _ => false

/- The closing fence `(?:-{3}|\.{3})\r?\n`: returns its consumed length. -/
def closeFenceLen : List Char → Option Nat
  | '-' :: '-' :: '-' :: '\r' :: '\n' :: _ => some 5
  | '-' :: '-' :: '-' :: '\n' :: _ => some 4
  | '.' :: '.' :: '.' :: '\r' :: '\n' :: _ => some 5
  | '.' :: '.' :: '.' :: '\n' :: _ => some 4
  | _ => none

/- Split a list just after its first `\n`: returns (chunk incl. the newline, rest). -/
def splitAfterNL : List Char → Option (List Char × List Char)
  | [] => none
  | '\n' :: r => some (['\n'], r)
  | c :: r =>
    match splitAfterNL r with
    | some (chunk, rest) => some (c :: chunk, rest)
    | none => none

/-
Scan for the lazily matched group 2 and the close fence.  The scan
starts just after the opening fence (a position preceded by `\n`, so
the lookbehind holds there) and advances from one post-newline
position to the next, taking the first position where the close fence
matches.  Returns (group 2, close-fence length).  Fueled to keep the
definition structurally recursive; the wrapper supplies enough fuel.
-/
def fmScanAux : Nat → List Char → Option (List Char × Nat)
  | 0, _ => none
  | fuel + 1, s =>
    match closeFenceLen s with
    | some cl => some ([], cl)
    | none =>
      match splitAfterNL s with
      | none => none
      | some (chunk, rest) =>
        match fmScanAux fuel rest with
        | some (g, cl) => some (chunk ++ g, cl)
        | none => none

/- The whole front-matter regex: returns (group 2, `m.end(1)`). -/
def fmMatch (text : List Char) : Option (List Char × Nat) :=
  match parseOpenFence text with
  | none => none
  | some (olen, rest) =>
    if startsNL rest then none
    else
      match fmScanAux (rest.length + 1) rest with
      | none => none
      | some (g2, cl) => some (g2, olen + g2.length + cl)

/-
Outcome of `yaml_load` on the fenced block, as far as the compiler
inspects it: a parse error (exception), a `None` result, an ordered
mapping, or some non-mapping value (which fails the `isinstance`
assertion).  The parser itself is the external `yaml` library, so it
is passed in as an oracle.
-/
inductive YamlVal where
  | err : YamlVal
  | null : YamlVal
  | mapping : List (String × String) → YamlVal
  | other : YamlVal
deriving DecidableEq

/- Python `text.startswith("---")`. -/
def startsWithDashes : List Char → Bool
  | '-' :: '-' :: '-' :: _ => true
  | _ => false

/-
`Compiler.preprocessor_yaml_frontmatter(text)`.  Follows the source:
if the text starts with `---` and the regex matches, the block is fed
to `yaml_load`.  A `None` result is replaced by an empty ordered dict
(and the block is still consumed, since `yaml_okay` stays true); a
non-mapping result fails the `assert` and a parse error raises, both
of which set `yaml_okay = False` so the text is left untouched.
-/
def preprocessor_yaml_frontmatter (yaml_load : List Char → YamlVal)
    (text : List Char) : List (String × String) × List Char :=
  if startsWithDashes text then
    match fmMatch text with
    | some (g2, end1) =>
      match yaml_load g2 with
      | YamlVal.mapping m => (m, text.drop end1)
      | YamlVal.null => ([], text.drop end1)
      | YamlVal.other => ([], text)
      | YamlVal.err => ([], text)
    | none => ([], text)
  else ([], text)

/-!
Online compilers (`OnlineCompiler`, specialised by `GithubCompiler`
and `GitlabCompiler`): `parser_specific_convert` and its curl
fallback.  The network, the curl subprocess and the JSON layer are
external, so the observable outcome of `urlopen` and of the curl run
are inductive parameters, and `unpack_data` (which for GitLab parses
JSON and can raise) is a fallible function parameter.  The embedded
functions return `Except String (Option String)`: `Except.error`
models an exception escaping the Python method, and the payload is an
`Option` because `curl_convert` can return Python `None`.
-/

/- Observable outcome of `urlopen(request).read()` in the `try` block. -/
inductive NetResult where
  | success : String → NetResult
  | httpError : Nat → String → NetResult
  | urlError : NetResult
  | otherError : NetResult

/- Observable outcome of the curl subprocess in `curl_convert`. -/
inductive CurlResult where
  | output : String → CurlResult
  | calledProcessError : CurlResult

/-
`OnlineCompiler.curl_convert(data)`.  The `try` block catches only
`subprocess.CalledProcessError`; in that branch an error dialog is
shown and the method falls through to the trailing `return None`.  An
exception raised by `unpack_data` on the curl output (e.g. the GitLab
JSON decode) is not caught and escapes.
-/
def curl_convert (unpack_data : String → Except String String)
    (curl : CurlResult) : Except String (Option String) :=
  match curl with
  | CurlResult.output raw =>
    match unpack_data raw with
    | Except.ok html => Except.ok (some html)
    | Except.error e => Except.error e
  | CurlResult.calledProcessError => Except.ok none

/-
`OnlineCompiler.parser_specific_convert(markdown_text)`.  The local
variable `markdown_html` is initialised to the sentinel, so every
`HTTPError` branch (401, 403, anything else) shows a dialog and falls
through to `return markdown_html` with the sentinel.  (The message
extraction from the HTTP error body is elided here: it is a dialog
side effect.)  On `URLError` the curl fallback value is assigned
directly, `None` included.  On any other exception the handler itself
calls `self.get_response_from_exception(e)`, which invokes `e.read()`
on an exception object that has no such attribute, so an
`AttributeError` escapes the method.
-/
def online_parser_specific_convert (unpack_data : String → Except String String)
    (net : NetResult) (curl : CurlResult) : Except String (Option String) :=
  match net with
  | NetResult.success raw =>
    match unpack_data raw with
    | Except.ok html => Except.ok (some html)
    | Except.error _ => Except.error "AttributeError"
  | NetResult.httpError _ _ => Except.ok (some CANNOT_CONVERT)
  | NetResult.urlError => curl_convert unpack_data curl
  | NetResult.otherError => Except.error "AttributeError"

/- `GithubCompiler.unpack_data`: plain UTF-8 decode of the raw body, total. -/
def github_unpack_data (raw : String) : Except String String :=
  Except.ok raw

/-!
External compiler: `ExternalMarkdownCompiler.parser_specific_convert`.

The binary map lookup `settings.get('markdown_binary_map', {})[name]`
is a plain subscript: a missing key raises `KeyError`, which is not
caught anywhere in the method.  When the key is present, the argument
vector must be non-empty and its first element must exist on disk,
otherwise an error dialog is shown and the sentinel is returned
without starting any process.  A spawned process whose exit status is
non-zero also yields the sentinel.  The filesystem and the subprocess
are oracles; the returned `Bool` records whether `subprocess.Popen`
was invoked, and `Except.error` models the escaping `KeyError`.
-/
def lookupKey (m : List (String × List String)) (k : String) : Option (List String) :=
  match m with
  | [] => none
  | (k2, v) :: rest => if k2 = k then some v else lookupKey rest k

def external_parser_specific_convert
    (markdown_binary_map : List (String × List String))
    (path_exists : String → Bool)
    (run_process : List String → String → Nat × String)
    (compiler_name : String) (markdown_text : String) :
    Except String (String × Bool) :=
  match lookupKey markdown_binary_map compiler_name with
  | none => Except.error "KeyError"
  | some binary =>
    match binary with
    | [] => Except.ok (CANNOT_CONVERT, false)
    | b0 :: _ =>
      if path_exists b0 then
        let r := run_process binary markdown_text
        if r.1 ≠ 0 then Except.ok (CANNOT_CONVERT, true)
        else Except.ok (r.2, true)
      else Except.ok (CANNOT_CONVERT, false)

/-!
The ordered post-conversion pipeline: `Compiler.convert_markdown`.

The stage bodies (`parser_specific_convert`, the subclass
`parser_specific_postprocess`, and the `pymdownx` path converter,
base64 embedder and attribute stripper wrapped by
`postprocessor_pathconverter` / `postprocessor_base64` /
`postprocessor_simple`) are taken as parameters; the definition keeps
only what `convert_markdown` itself fixes: the order of the stages
and the conditions and flags under which each runs.  The state type is
generic so the stages can be instrumented for the ordering theorem.
-/

structure ConvertSettings where
  image_path_conversion : String
  file_path_conversions : String
  html_simple : Bool

def convert_markdown {α : Type}
    (parser_specific_convert : α → α)
    (parser_specific_postprocess : α → α)
    (postprocessor_pathconverter : α → Bool → Bool → Bool → α)
    (postprocessor_base64 : α → α)
    (postprocessor_simple : α → α)
    (s : ConvertSettings) (markdown_text : α) : α :=
  let markdown_html := parser_specific_convert markdown_text
  let image_convert := s.image_path_conversion
  let file_convert := s.file_path_conversions
  let markdown_html := parser_specific_postprocess markdown_html
  let markdown_html :=
    if image_convert = "absolute" ∨ file_convert = "absolute" then
      postprocessor_pathconverter markdown_html
        (image_convert == "absolute") (file_convert == "absolute") true
    else markdown_html
  let markdown_html :=
    if image_convert = "relative" ∨ file_convert = "relative" then
      postprocessor_pathconverter markdown_html
        (image_convert == "relative") (file_convert == "relative") false
    else markdown_html
  let markdown_html :=
    if image_convert = "base64" then postprocessor_base64 markdown_html
    else markdown_html
  if s.html_simple then postprocessor_simple markdown_html else markdown_html

/- Trace instrumentation: each stage appends a tag to a transcript. -/
def tagStage (name : String) : List String → List String :=
  fun l => l ++ [name]

def pathTag (image_convert file_convert absolute : Bool) : String :=
  "pathconverter:" ++ toString image_convert ++ "," ++
    toString file_convert ++ "," ++ toString absolute

def tagPathStage : List String → Bool → Bool → Bool → List String :=
  fun l i f a => l ++ [pathTag i f a]

/- The stage tags `convert_markdown` is expected to emit, in order. -/
def expectedStages (s : ConvertSettings) : List String :=
  ["convert", "postprocess"] ++
  (if s.image_path_conversion = "absolute" ∨ s.file_path_conversions = "absolute" then
    [pathTag (s.image_path_conversion == "absolute") (s.file_path_conversions == "absolute") true]
  else []) ++
  (if s.image_path_conversion = "relative" ∨ s.file_path_conversions = "relative" then
    [pathTag (s.image_path_conversion == "relative") (s.file_path_conversions == "relative") false]
  else []) ++
  (if s.image_path_conversion = "base64" then ["base64"] else []) ++
  (if s.html_simple then ["simple"] else [])

/-!
Title and meta resolution: `Compiler.get_meta` and `Compiler.get_title`.

`cgi.escape` replaces `&`, `<`, `>` (and `"` when `quote` is set);
the sequential `str.replace` passes are equivalent to one character
map because no replacement string contains a character that a later
pass rewrites.
-/

/- Python `str.lower()` on one ASCII character. -/
def pyLowerChar (c : Char) : Char :=
  if 'A' ≤ c ∧ c ≤ 'Z' then Char.ofNat (c.toNat + 32) else c

/- Python `str.lower()` (ASCII range), as a character list. -/
def pyLower (s : String) : List Char :=
  s.toList.map pyLowerChar

def escapeChar (quote : Bool) (c : Char) : List Char :=
  if c = '&' then "&amp;".toList
  else if c = '<' then "&lt;".toList
  else if c = '>' then "&gt;".toList
  else if quote ∧ c = '"' then "&quot;".toList
  else [c]

def cgi_escape (quote : Bool) (s : List Char) : List Char :=
  (s.map (escapeChar quote)).flatten

/- A settings meta value: a string, a list of strings, or Python `None`. -/
inductive MetaVal where
  | str : String → MetaVal
  | list : List String → MetaVal
  | null : MetaVal
deriving DecidableEq

/-
`Compiler.get_meta`.  Iterates the `meta` mapping in order; a key whose
lowercase form is `title` sets `self.meta_title` (first element of a
list value, empty string for an empty list) and is skipped; every other
non-`None` value (lists joined with commas) becomes an escaped
`<meta>` tag.  Returns (`meta_title`, the joined tag lines).
-/
def get_meta_step (acc : Option String × List (List Char))
    (kv : String × MetaVal) : Option String × List (List Char) :=
  if pyLower kv.1 = "title".toList then
    (some (match kv.2 with
           | MetaVal.str v => v
           | MetaVal.list [] => ""
           | MetaVal.list (v :: _) => v
           | MetaVal.null => "None"), acc.2)
  else
    match kv.2 with
    | MetaVal.null => acc
    | MetaVal.str v =>
      (acc.1, acc.2 ++ ["<meta name=\"".toList ++ cgi_escape true kv.1.toList ++
        "\" content=\"".toList ++ cgi_escape true v.toList ++ "\">".toList])
    | MetaVal.list vs =>
      (acc.1, acc.2 ++ ["<meta name=\"".toList ++ cgi_escape true kv.1.toList ++
        "\" content=\"".toList ++ cgi_escape true (String.intercalate "," vs).toList ++
        "\">".toList])

def get_meta (meta : List (String × MetaVal)) : Option String × List Char :=
  let r := meta.foldl get_meta_step (none, [])
  (r.1, (r.2.intersperse "\n".toList).flatten)

/- `os.path.basename` (POSIX separator): the part after the last slash. -/
def basename (s : List Char) : List Char :=
  ((s.reverse.takeWhile (fun c => c ≠ '/')).reverse)

/-
The stem part of `os.path.splitext` on a basename: the extension
starts at the last dot, provided some earlier character of the name is
not a dot (so purely dotted prefixes such as `.bashrc` keep the dot).
-/
def splitext_stem (b : List Char) : List Char :=
  let revIdx := b.reverse.takeWhile (fun c => c ≠ '.')
  if revIdx.length = b.length then b
  else
    let stemLen := b.length - revIdx.length - 1
    if (b.take stemLen).any (fun c => c ≠ '.') then b.take stemLen else b

/-
`Compiler.get_title`.  `self.meta_title` (set by `get_meta`) wins when
it is not `None`; a falsy (empty) resolved title falls through to the
file name stem, or the literal `untitled` when there is no usable file
name; the result is embedded escaped in a `<title>` element.
-/
def get_title (meta_title : Option String) (view_name : String)
    (file_name : Option String) : List Char :=
  let title := match meta_title with
               | some t => t
               | none => view_name
  let title := if title = "" then
      match file_name with
      | none => "untitled"
      | some fn => if fn = "" then "untitled"
                   else (splitext_stem (basename fn.toList)).asString
    else title
  "<title>".toList ++ cgi_escape false title.toList ++ "</title>".toList

/-!
Header id injection: `GithubCompiler.postprocess_inject_header_id`.

The regex `(?P<open><h([1-6])>)(?P<text>.*?)(?P<close></h\2>)` with
`re.DOTALL` is scanned left to right by `re.sub`: an attribute-less
opening tag `<h1>`..`<h6>`, the lazily matched inner text (so the
first matching close tag of the same level wins), and the close tag.
`uslugify` comes from the external `pymdownx.slugs` module and is a
parameter.  The `unique` dict keyed by slug is an association list
threaded through the matches in order.
-/

def isHLevel (c : Char) : Bool :=
  ['1', '2', '3', '4', '5', '6'].contains c

/- An attribute-less heading open tag at the head of the list. -/
def openMatch : List Char → Option (Char × List Char)
  | '<' :: 'h' :: d :: '>' :: rest =>
    if isHLevel d then some (d, rest) else none
  | _ => none

/- Lazy search for the close tag of level `d`: (inner text, rest after it). -/
def findClose (d : Char) : List Char → Option (List Char × List Char)
  | [] => none
  | c :: cs =>
    if List.isPrefixOf ['<', '/', 'h', d, '>'] (c :: cs) then
      some ([], (c :: cs).drop 5)
    else
      match findClose d cs with
      | some (inner, rest) => some (c :: inner, rest)
      | none => none

/-
The next regex match: (text before the match, heading level, inner
text, rest after the match).  When an open tag has no matching close
tag the engine moves on one character, leaving the `<` as plain text.
-/
def findHeading : List Char → Option (List Char × Char × List Char × List Char)
  | [] => none
  | c :: cs =>
    match openMatch (c :: cs) with
    | some (d, rest) =>
      match findClose d rest with
      | some (inner, rest2) => some ([], d, inner, rest2)
      | none =>
        match findHeading cs with
        | some (pre, d2, inner, r) => some (c :: pre, d2, inner, r)
        | none => none
    | none =>
      match findHeading cs with
      | some (pre, d2, inner, r) => some (c :: pre, d2, inner, r)
      | none => none

/- All matches in scan order, with the unmatched tail.  Fueled. -/
def findMatchesAux : Nat → List Char → List (List Char × Char × List Char) × List Char
  | 0, s => ([], s)
  | fuel + 1, s =>
    match findHeading s with
    | none => ([], s)
    | some (pre, d, inner, rest) =>
      let r := findMatchesAux fuel rest
      ((pre, d, inner) :: r.1, r.2)

def findMatches (s : List Char) : List (List Char × Char × List Char) × List Char :=
  findMatchesAux s.length s

/- The `unique` dict: first-match association lookup and in-place update. -/
def dictGet (m : List (List Char × Nat)) (k : List Char) : Option Nat :=
  match m with
  | [] => none
  | (k2, v) :: rest => if k2 = k then some v else dictGet rest k

def dictSet (m : List (List Char × Nat)) (k : List Char) (v : Nat) :
    List (List Char × Nat) :=
  match m with
  | [] => [(k, v)]
  | (k2, v2) :: rest =>
    if k2 = k then (k2, v) :: rest else (k2, v2) :: dictSet rest k v

/- A heading rendered with an injected id:
`m.group('open')[:-1] + ' id="%s">' % header_id + text + close`. -/
def renderWithId (d : Char) (header_id : List Char) (text : List Char) : List Char :=
  ['<', 'h', d] ++ " id=\"".toList ++ header_id ++ "\">".toList ++
    text ++ ['<', '/', 'h', d, '>']

/- A heading rendered unchanged (`m.group(0)`). -/
def renderPlain (d : Char) (text : List Char) : List Char :=
  ['<', 'h', d, '>'] ++ text ++ ['<', '/', 'h', d, '>']

/-
The `inject_id` replacement callback: empty slugs leave the match
untouched; a first occurrence records count 1 and injects the plain
slug; a repeat occurrence increments the count and appends a dash and
the previous count.
-/
def inject_id (uslugify : List Char → List Char)
    (unique : List (List Char × Nat)) (d : Char) (text : List Char) :
    List Char × List (List Char × Nat) :=
  let header_id := uslugify text
  if header_id = [] then (renderPlain d text, unique)
  else
    match dictGet unique header_id with
    | none => (renderWithId d header_id text, dictSet unique header_id 1)
    | some value =>
      (renderWithId d (header_id ++ '-' :: (toString value).toList) text,
        dictSet unique header_id (value + 1))

def injectAll (uslugify : List Char → List Char)
    (unique : List (List Char × Nat)) :
    List (List Char × Char × List Char) → List Char
  | [] => []
  | (pre, d, text) :: rest =>
    let r := inject_id uslugify unique d text
    pre ++ r.1 ++ injectAll uslugify r.2 rest

/- `GithubCompiler.postprocess_inject_header_id(html)`. -/
def postprocess_inject_header_id (uslugify : List Char → List Char)
    (html : List Char) : List Char :=
  let ms := findMatches html
  injectAll uslugify [] ms.1 ++ ms.2

/-!
Document assembly: the tail of `Compiler.run` (after the body has been
produced by `convert_markdown`).  Template loading and existence are
filesystem oracles; the head is built from the five `get_*` pieces in
the order the source concatenates them.  `str.replace(old, new, 1)`
replaces only the first occurrence.
-/

def replaceFirstL (pat repl : List Char) : List Char → List Char
  | [] => if pat = [] then repl else []
  | c :: cs =>
    if pat = [] then repl ++ c :: cs
    else if List.isPrefixOf pat (c :: cs) then repl ++ (c :: cs).drop pat.length
    else c :: replaceFirstL pat repl cs

def replaceFirst (s pat repl : String) : String :=
  (replaceFirstL pat.toList repl.toList s.toList).asString

/- The synthesized default document shell of `Compiler.run` (else branch). -/
def defaultShell (head body : String) : String :=
  "<!DOCTYPE html>" ++ "<html><head><meta charset=\"utf-8\">" ++
  "<meta name=\"viewport\" content=\"width=device-width, initial-scale=1\">" ++
  head ++ "</head><body>" ++ "<article class=\"markdown-body\">" ++ body ++
  "</article>" ++ "</body>" ++ "</html>"

/-
The assembly branch of `Compiler.run`: `html_simple` short-circuits to
the bare body; otherwise a configured and existing template file has
its first HEAD and BODY placeholders substituted; otherwise the
default shell is synthesized.  `html_template` is `none` when the
setting is unset or falsy (the source also normalises the path with
`abspath`/`expanduser`, which is immaterial to the oracle).
-/
def run_assemble (html_simple : Bool) (html_template : Option String)
    (path_exists : String → Bool) (load_utf8 : String → String)
    (meta stylesheet javascript highlight title : String)
    (body : String) : String :=
  if html_simple then body
  else
    let head := meta ++ stylesheet ++ javascript ++ highlight ++ title
    match html_template with
    | some t =>
      if path_exists t then
        replaceFirst (replaceFirst (load_utf8 t) "\x7b\x7b HEAD \x7d\x7d" head)
          "\x7b\x7b BODY \x7d\x7d" body
      else defaultShell head body
    | none => defaultShell head body

/-!
Source-text selection: the head of `Compiler.get_contents`.  The whole
buffer is the default; when the call does not force whole-file mode
and the first selection region stripped of whitespace is non-empty,
the selection replaces it.
-/
def get_contents_select (doc_text : String) (selection : String)
    (wholefile : Bool) : String :=
  let contents := doc_text
  if ¬ wholefile then
    if pyStrip selection ≠ "" then selection else contents
  else contents

/-!
GitLab postprocessing: `GitlabCompiler.parser_specific_postprocess`
with its two regex fixups `fix_ids` and `fix_images_src`.

`fix_ids` rewrites `(<a)(.*?)(id="user-content-)(.*?)(>)` (DOTALL) to
drop the `user-content-` prefix: after a literal `<a` the lazy groups
take the earliest `id="user-content-` and the earliest following `>`.

`fix_images_src` rewrites
`(<img)([^>]*?)(src="[^>]*")([^>]*?)(data-src="[^>]*")([^>]*?)(>)`
so the `data-src` value replaces the placeholder `src`.  All inner
groups exclude `>`, so a match is confined between a literal `<img`
and the first `>` after it; within that zone the lazy groups take the
earliest viable occurrence of each literal and the greedy
`[^>]*` before each closing quote takes the latest viable quote.
-/

/- Split at the first occurrence of a literal satisfying a suffix predicate. -/
def splitFirstLitSuchThat (pat : List Char) (p : List Char → Bool) :
    List Char → Option (List Char × List Char)
  | [] => none
  | c :: cs =>
    if List.isPrefixOf pat (c :: cs) ∧ p ((c :: cs).drop pat.length) then
      some ([], (c :: cs).drop pat.length)
    else
      match splitFirstLitSuchThat pat p cs with
      | some (pre, rest) => some (c :: pre, rest)
      | none => none

def splitFirstLit (pat : List Char) (s : List Char) :
    Option (List Char × List Char) :=
  splitFirstLitSuchThat pat (fun _ => true) s

def containsLit (pat : List Char) (s : List Char) : Bool :=
  (splitFirstLit pat s).isSome

/- Split at the last `"` whose suffix satisfies a predicate. -/
def splitLastQuote (p : List Char → Bool) :
    List Char → Option (List Char × List Char)
  | [] => none
  | c :: cs =>
    match splitLastQuote p cs with
    | some (pre, rest) => some (c :: pre, rest)
    | none => if c = '"' ∧ p cs then some ([], cs) else none

/- One `fix_ids` match attempt at a position already past a `<a`. -/
def aMatchHere (s : List Char) : Option (List Char × List Char × List Char) :=
  match splitFirstLit "id=\"user-content-".toList s with
  | none => none
  | some (text1, afterMarker) =>
    match splitFirstLit ['>'] afterMarker with
    | none => none
    | some (text2, afterGt) => some (text1, text2, afterGt)

/- The next `fix_ids` match: (preceding text, text1, text2, rest). -/
def findAnchor : List Char → Option (List Char × List Char × List Char × List Char)
  | [] => none
  | c :: cs =>
    match
      (match c :: cs with
       | '<' :: 'a' :: rest => aMatchHere rest
       | _ => none) with
    | some (t1, t2, after) => some ([], t1, t2, after)
    | none =>
      match findAnchor cs with
      | some (pre, t1, t2, after) => some (c :: pre, t1, t2, after)
      | none => none

/- `GitlabCompiler.fix_ids(html)` as a fueled left-to-right substitution. -/
def fix_ids_aux : Nat → List Char → List Char
  | 0, s => s
  | fuel + 1, s =>
    match findAnchor s with
    | none => s
    | some (pre, t1, t2, after) =>
      pre ++ "<a".toList ++ t1 ++ "id=\"".toList ++ t2 ++ ['>'] ++
        fix_ids_aux fuel after

def fix_ids (html : String) : String :=
  (fix_ids_aux html.toList.length html.toList).asString

/- Viability of the tail after a candidate `data-src="`: a quote follows. -/
def dataTailOk (s : List Char) : Bool :=
  containsLit ['"'] s

/- Viability of the tail after a candidate `src="`: some closing quote is
followed by `data-src="` with its own closing quote. -/
def srcTailOk (s : List Char) : Bool :=
  (splitLastQuote (fun a =>
    (splitFirstLitSuchThat "data-src=\"".toList dataTailOk a).isSome) s).isSome

/- The inner `<img ... >` zone match: (text1, text2, data value, text3). -/
def imgZoneMatch (z : List Char) :
    Option (List Char × List Char × List Char × List Char) :=
  match splitFirstLitSuchThat "src=\"".toList srcTailOk z with
  | none => none
  | some (text1, r1) =>
    match splitLastQuote (fun a =>
      (splitFirstLitSuchThat "data-src=\"".toList dataTailOk a).isSome) r1 with
    | none => none
    | some (_, r2) =>
      match splitFirstLitSuchThat "data-src=\"".toList dataTailOk r2 with
      | none => none
      | some (text2, r3) =>
        match splitLastQuote (fun _ => true) r3 with
        | none => none
        | some (dataVal, text3) => some (text1, text2, dataVal, text3)

/- The next `fix_images_src` match: (preceding text, zone groups, rest). -/
def findImg : List Char →
    Option (List Char × (List Char × List Char × List Char × List Char) × List Char)
  | [] => none
  | c :: cs =>
    match
      (match c :: cs with
       | '<' :: 'i' :: 'm' :: 'g' :: rest =>
         match splitFirstLit ['>'] rest with
         | none => none
         | some (zone, afterGt) =>
           match imgZoneMatch zone with
           | some groups => some (groups, afterGt)
           | none => none
       | _ => none) with
    | some (groups, after) => some ([], groups, after)
    | none =>
      match findImg cs with
      | some (pre, groups, after) => some (c :: pre, groups, after)
      | none => none

/- Replacement body: `open + text1 + data_src[5:] + text2 + text3 + close`
where `data_src[5:]` strips the `data-` prefix, leaving `src="..."`. -/
def imgReplacement (g : List Char × List Char × List Char × List Char) : List Char :=
  "<img".toList ++ g.1 ++ "src=\"".toList ++ g.2.2.1 ++ ['"'] ++
    g.2.1 ++ g.2.2.2 ++ ['>']

/- `GitlabCompiler.fix_images_src(html)` as a fueled substitution. -/
def fix_images_src_aux : Nat → List Char → List Char
  | 0, s => s
  | fuel + 1, s =>
    match findImg s with
    | none => s
    | some (pre, groups, after) =>
      pre ++ imgReplacement groups ++ fix_images_src_aux fuel after

def fix_images_src (html : String) : String :=
  (fix_images_src_aux html.toList.length html.toList).asString

/- The appended highlight-theme script element. -/
def highlightThemeScript (theme : String) : String :=
  "<script>const HIGHLIGHT_THEME = \"" ++ theme ++ "\";</script>"

/- The GitLab settings read by the postprocess, as raw `settings.get`
results so source-side defaults stay visible. -/
structure GitlabSettings where
  gitlab_mode : Option String
  html_simple : Option Bool
  gitlab_highlight_theme : Option String

/- `GitlabCompiler.parser_specific_postprocess(html)`. -/
def gitlab_parser_specific_postprocess (s : GitlabSettings) (html : String) : String :=
  let html := if s.gitlab_mode.getD "gfm" = "gfm" then fix_ids html else html
  let html :=
    if ¬ s.html_simple.getD false then
      html ++ highlightThemeScript (s.gitlab_highlight_theme.getD "white")
    else html
  fix_images_src html

/-!
Theorems.
-/

/-- Claim C1: the claim that every backend failure yields the non-null
sentinel string is contradicted by the source: when the network layer
raises `URLError` and the curl fallback hits
`subprocess.CalledProcessError`, `curl_convert` returns Python `None`,
which `parser_specific_convert` hands to the pipeline in place of a
string body.  HTTP errors do keep the sentinel, and any unexpected
exception escapes the method entirely instead of being folded into a
failure result. -/
theorem c1_online_failure_not_always_sentinel :
    online_parser_specific_convert github_unpack_data
      NetResult.urlError CurlResult.calledProcessError = Except.ok none ∧
    (Except.ok none : Except String (Option String)) ≠
      Except.ok (some CANNOT_CONVERT) ∧
    online_parser_specific_convert github_unpack_data
      (NetResult.httpError 500 "boom") CurlResult.calledProcessError =
      Except.ok (some CANNOT_CONVERT) ∧
    online_parser_specific_convert github_unpack_data
      NetResult.otherError CurlResult.calledProcessError =
      Except.error "AttributeError" := by
  refine ⟨rfl, ?_, rfl, rfl⟩
  intro h
  exact Option.noConfusion (Except.ok.inj h)

/-- Claim C2 (counterexample): a front-matter block that parses as YAML
`None` (for example a block holding only a comment line) is consumed:
the returned text is the remainder after the block, not the original
input, contradicting the claim that a non-mapping parse leaves the
text completely unchanged. -/
theorem c2_counterexample :
    preprocessor_yaml_frontmatter (fun _ => YamlVal.null)
      ("---\n# c\n---\nbody".toList) = ([], "body".toList) ∧
    "body".toList ≠ "---\n# c\n---\nbody".toList := by
  refine ⟨by decide, by decide⟩

/-- Claim C2 (amended): when the leading fenced block matches, a YAML
parse error or a parse yielding a non-mapping value other than `None`
leaves the front matter empty and the text unchanged; a parse yielding
`None` also produces an empty mapping but consumes the block, so the
returned text is the input with the matched block removed. -/
theorem c2_frontmatter_reject_behavior
    (yaml_load : List Char → YamlVal) (text g2 : List Char) (e1 : Nat)
    (hs : startsWithDashes text = true)
    (hm : fmMatch text = some (g2, e1)) :
    (yaml_load g2 = YamlVal.err →
      preprocessor_yaml_frontmatter yaml_load text = ([], text)) ∧
    (yaml_load g2 = YamlVal.other →
      preprocessor_yaml_frontmatter yaml_load text = ([], text)) ∧
    (yaml_load g2 = YamlVal.null →
      preprocessor_yaml_frontmatter yaml_load text = ([], text.drop e1)) := by
  refine ⟨fun h => ?_, fun h => ?_, fun h => ?_⟩ <;>
    simp [preprocessor_yaml_frontmatter, hs, hm, h]

/-- Witness for C2: the amended behaviour at a concrete input whose
fenced block the oracle rejects as a parse error. -/
theorem c2_witness :
    preprocessor_yaml_frontmatter (fun _ => YamlVal.err)
      ("---\nfoo\n---\nrest".toList) = ([], "---\nfoo\n---\nrest".toList) :=
  (c2_frontmatter_reject_behavior (fun _ => YamlVal.err)
    ("---\nfoo\n---\nrest".toList) ("foo\n".toList) 12
    (by decide) (by decide)).1 rfl

/-- Claim C3: an input that does not start with `---` is returned with
an empty mapping and the text itself unchanged, whatever the YAML
oracle does. -/
theorem c3_no_fence_identity
    (yaml_load : List Char → YamlVal) (text : List Char)
    (h : startsWithDashes text = false) :
    preprocessor_yaml_frontmatter yaml_load text = ([], text) := by
  simp [preprocessor_yaml_frontmatter, h]

/-- Witness for C3 at a concrete fence-less input. -/
theorem c3_witness :
    preprocessor_yaml_frontmatter (fun _ => YamlVal.mapping [("k", "v")])
      ("# hello\nworld".toList) = ([], "# hello\nworld".toList) :=
  c3_no_fence_identity (fun _ => YamlVal.mapping [("k", "v")])
    ("# hello\nworld".toList) (by decide)

/-- Claim C4 (counterexample): a backend name absent from
`markdown_binary_map` does not produce the sentinel — the subscript
lookup raises a `KeyError` that escapes `parser_specific_convert`,
contradicting the claim that the missing-binary case is reported and
folded into the sentinel fragment without raising outward. -/
theorem c4_counterexample :
    external_parser_specific_convert [] (fun _ => true) (fun _ _ => (0, ""))
      "multimarkdown" "# x" = Except.error "KeyError" ∧
    (Except.error "KeyError" : Except String (String × Bool)) ≠
      Except.ok (CANNOT_CONVERT, false) ∧
    (Except.error "KeyError" : Except String (String × Bool)) ≠
      Except.ok (CANNOT_CONVERT, true) := by
  refine ⟨rfl, fun h => Except.noConfusion h, fun h => Except.noConfusion h⟩

/-- Claim C4 (amended): when the backend name maps to an empty argument
vector or to an executable whose path does not exist, the external
renderer reports the missing binary and returns the sentinel fragment
without spawning any process; but when the name is absent from the
binary map the lookup raises a `KeyError` that propagates outward. -/
theorem c4_external_binary_handling
    (markdown_binary_map : List (String × List String))
    (path_exists : String → Bool)
    (run_process : List String → String → Nat × String)
    (compiler_name markdown_text : String) :
    (lookupKey markdown_binary_map compiler_name = none →
      external_parser_specific_convert markdown_binary_map path_exists
        run_process compiler_name markdown_text = Except.error "KeyError") ∧
    (lookupKey markdown_binary_map compiler_name = some [] →
      external_parser_specific_convert markdown_binary_map path_exists
        run_process compiler_name markdown_text =
        Except.ok (CANNOT_CONVERT, false)) ∧
    (∀ b0 bs, lookupKey markdown_binary_map compiler_name = some (b0 :: bs) →
      path_exists b0 = false →
      external_parser_specific_convert markdown_binary_map path_exists
        run_process compiler_name markdown_text =
        Except.ok (CANNOT_CONVERT, false)) := by
  refine ⟨fun h => ?_, fun h => ?_, fun b0 bs h hp => ?_⟩
  · simp [external_parser_specific_convert, h]
  · simp [external_parser_specific_convert, h]
  · simp [external_parser_specific_convert, h, hp]

/-- Witness for C4: a configured but nonexistent executable path yields
the sentinel without spawning. -/
theorem c4_witness :
    external_parser_specific_convert [("mmd", ["/no/such/binary"])]
      (fun _ => false) (fun _ _ => (0, "unused")) "mmd" "# x" =
      Except.ok (CANNOT_CONVERT, false) :=
  (c4_external_binary_handling [("mmd", ["/no/such/binary"])]
    (fun _ => false) (fun _ _ => (0, "unused")) "mmd" "# x").2.2
    "/no/such/binary" [] (by decide) (by decide)

/-- Claim C5: with every stage instrumented to log a tag,
`convert_markdown` emits, for every configuration, exactly the enabled
stages in the fixed order: backend convert, backend postprocess,
absolute path conversion (iff an image or file mode is `absolute`,
with the per-class flags), relative path conversion (iff an image or
file mode is `relative`), base64 embedding (iff the image mode is
`base64`), then the attribute-stripping simple postprocess (iff
`html_simple`). -/
theorem c5_postprocess_order (s : ConvertSettings) :
    convert_markdown (tagStage "convert") (tagStage "postprocess")
      tagPathStage (tagStage "base64") (tagStage "simple") s [] =
      expectedStages s := by
  simp only [convert_markdown, expectedStages, tagStage, tagPathStage]
  split_ifs <;> simp

/-- Claim C6 (counterexample): an explicit `title` meta entry holding an
empty list resolves to the empty-string meta title, but the emitted
title element is built from the file-name stem — neither the empty
explicit title nor the view's display name is used, contradicting the
claimed preference chain. -/
theorem c6_counterexample :
    (get_meta [("title", MetaVal.list [])]).1 = some "" ∧
    get_title (some "") "name" (some "doc.md") = "<title>doc</title>".toList ∧
    "<title>doc</title>".toList ≠ "<title></title>".toList ∧
    "<title>doc</title>".toList ≠ "<title>name</title>".toList := by
  refine ⟨by decide, by decide, by decide, by decide⟩

/-- Claim C6 (amended): the title is the explicit `title` meta value
(first element of a list value, empty string for an empty list) when
that value is non-empty, else the view's display name when no `title`
meta key exists and the name is non-empty; a falsy (empty) resolved
title — whether from an empty meta title or an empty display name —
falls through to the stem of the file name, or to the literal
`untitled` when no file name is available; the chosen title is
HTML-entity-escaped inside the `<title>` element. -/
theorem c6_title_resolution :
    (∀ (t view_name : String) (file_name : Option String), t ≠ "" →
      get_title (some t) view_name file_name =
        "<title>".toList ++ cgi_escape false t.toList ++ "</title>".toList) ∧
    (∀ (view_name : String) (file_name : Option String), view_name ≠ "" →
      get_title none view_name file_name =
        "<title>".toList ++ cgi_escape false view_name.toList ++
          "</title>".toList) ∧
    (∀ (view_name fn : String), fn ≠ "" →
      get_title (some "") view_name (some fn) =
        "<title>".toList ++
          cgi_escape false (splitext_stem (basename fn.toList)).asString.toList ++
          "</title>".toList) ∧
    (∀ (fn : String), fn ≠ "" →
      get_title none "" (some fn) =
        "<title>".toList ++
          cgi_escape false (splitext_stem (basename fn.toList)).asString.toList ++
          "</title>".toList) ∧
    (∀ (view_name : String),
      get_title (some "") view_name none =
        "<title>".toList ++ cgi_escape false "untitled".toList ++
          "</title>".toList) := by
  refine ⟨fun t v f h => ?_, fun v f h => ?_, fun v fn h => ?_,
    fun fn h => ?_, fun v => ?_⟩
  · simp [get_title, h]
  · simp [get_title, h]
  · simp [get_title, h]
  · simp [get_title, h]
  · simp [get_title]

/-- Witness for C6: a non-empty explicit meta title is used, escaped. -/
theorem c6_witness :
    get_title (some "Foo") "view" none =
      "<title>".toList ++ cgi_escape false "Foo".toList ++ "</title>".toList :=
  c6_title_resolution.1 "Foo" "view" none (by decide)

/-- Claim C7: when the fragment's heading-regex scan yields exactly two
id-less headings with the same inner text and the slug of that text is
non-empty, the injected output gives the first heading the plain slug
id and the second the dash-1 suffixed id, which differs from the
first. -/
theorem c7_header_id_uniqueness (uslugify : List Char → List Char)
    (html pre1 pre2 t tail : List Char) (d1 d2 : Char)
    (hm : findMatches html = ([(pre1, d1, t), (pre2, d2, t)], tail))
    (hs : uslugify t ≠ []) :
    postprocess_inject_header_id uslugify html =
      pre1 ++ renderWithId d1 (uslugify t) t ++
        pre2 ++ renderWithId d2 (uslugify t ++ "-1".toList) t ++ tail ∧
    uslugify t ≠ uslugify t ++ "-1".toList := by
  constructor
  · unfold postprocess_inject_header_id
    rw [hm]
    have h1 : (toString (1 : Nat)).data = ['1'] := by decide
    simp [injectAll, inject_id, dictGet, dictSet, hs, h1, List.append_assoc]
  · intro h
    have hlen := congrArg List.length h
    simp at hlen

/-- Witness for C7: two identical `Foo` headings with a lowercasing
slug function receive ids `foo` and `foo-1`. -/
theorem c7_witness :
    postprocess_inject_header_id (fun t => t.map pyLowerChar)
      ("<h1>Foo</h1><h2>Foo</h2>".toList) =
      [] ++ renderWithId '1' ((fun t => t.map pyLowerChar) "Foo".toList)
        "Foo".toList ++
      [] ++ renderWithId '2'
        ((fun t => t.map pyLowerChar) "Foo".toList ++ "-1".toList)
        "Foo".toList ++ [] ∧
    (fun t => t.map pyLowerChar) "Foo".toList ≠
      (fun t => t.map pyLowerChar) "Foo".toList ++ "-1".toList :=
  c7_header_id_uniqueness (fun t => t.map pyLowerChar)
    ("<h1>Foo</h1><h2>Foo</h2>".toList) [] [] "Foo".toList [] '1' '2'
    (by decide) (by decide)

/-- Claim C8: with `html_simple` enabled the assembled full HTML is the
body fragment itself — no template substitution, shell, head content or
article wrapper is added; with it disabled and no usable template
(none configured, or the configured file missing) the full HTML is the
synthesized default shell, which wraps the body in
`<article class="markdown-body">` after the head pieces in their fixed
order. -/
theorem c8_assembly_modes (html_template : Option String)
    (path_exists : String → Bool) (load_utf8 : String → String)
    (meta stylesheet javascript highlight title body : String) :
    run_assemble true html_template path_exists load_utf8
      meta stylesheet javascript highlight title body = body ∧
    run_assemble false none path_exists load_utf8
      meta stylesheet javascript highlight title body =
      defaultShell (meta ++ stylesheet ++ javascript ++ highlight ++ title)
        body ∧
    (∀ tp : String, path_exists tp = false →
      run_assemble false (some tp) path_exists load_utf8
        meta stylesheet javascript highlight title body =
        defaultShell (meta ++ stylesheet ++ javascript ++ highlight ++ title)
          body) ∧
    defaultShell (meta ++ stylesheet ++ javascript ++ highlight ++ title)
        body =
      "<!DOCTYPE html>" ++ "<html><head><meta charset=\"utf-8\">" ++
      "<meta name=\"viewport\" content=\"width=device-width, initial-scale=1\">" ++
      (meta ++ stylesheet ++ javascript ++ highlight ++ title) ++
      "</head><body>" ++ "<article class=\"markdown-body\">" ++ body ++
      "</article>" ++ "</body>" ++ "</html>" := by
  refine ⟨rfl, rfl, fun tp h => ?_, rfl⟩
  simp [run_assemble, h]

/-- Witness for C8: a configured template path that does not exist
falls back to the default shell. -/
theorem c8_witness :
    run_assemble false (some "/missing/template.html") (fun _ => false)
      (fun _ => "TEMPLATE") "M" "C" "J" "H" "T" "B" =
      defaultShell ("M" ++ "C" ++ "J" ++ "H" ++ "T") "B" :=
  (c8_assembly_modes (some "/missing/template.html") (fun _ => false)
    (fun _ => "TEMPLATE") "M" "C" "J" "H" "T" "B").2.2.1
    "/missing/template.html" rfl

/-- Claim C9 (counterexample): a whitespace-only selection is a
non-empty selection, yet the pipeline converts the full document text
rather than the selection, contradicting the claim that any non-empty
selection is converted. -/
theorem c9_counterexample :
    get_contents_select "doc" " " false = "doc" ∧
    (" " : String) ≠ "" ∧
    ("doc" : String) ≠ " " := by
  refine ⟨rfl, by decide, by decide⟩

/-- Claim C9 (amended): when whole-document mode is not forced, the
pipeline converts the selection exactly when the selection stripped of
whitespace is non-empty (a blank or empty selection falls back to the
full document text); when whole-document mode is forced, the full text
is always converted. -/
theorem c9_selection_choice (doc_text selection : String) :
    (pyStrip selection ≠ "" →
      get_contents_select doc_text selection false = selection) ∧
    (pyStrip selection = "" →
      get_contents_select doc_text selection false = doc_text) ∧
    get_contents_select doc_text selection true = doc_text := by
  refine ⟨fun h => ?_, fun h => ?_, rfl⟩
  · simp [get_contents_select, h]
  · simp [get_contents_select, h]

/-- Witness for C9: a selection with visible content is converted. -/
theorem c9_witness :
    get_contents_select "full document" " sel " false = " sel " :=
  (c9_selection_choice "full document" " sel ").1 (by decide)

/-- Claim C10: for the GitLab backend postprocess, when `html_simple`
is disabled (its default) the body handed on is the id-fixed HTML with
the `HIGHLIGHT_THEME` script element appended — assigning the
configured `gitlab_highlight_theme`, default `white` — before the
lazy-image fixup runs, so the returned fragment is not the converted
HTML alone; with `html_simple` enabled no such script is appended. -/
theorem c10_gitlab_highlight_script (s : GitlabSettings) (html : String) :
    (s.html_simple.getD false = false →
      gitlab_parser_specific_postprocess s html =
        fix_images_src
          ((if s.gitlab_mode.getD "gfm" = "gfm" then fix_ids html else html) ++
            highlightThemeScript (s.gitlab_highlight_theme.getD "white"))) ∧
    (s.html_simple.getD false = true →
      gitlab_parser_specific_postprocess s html =
        fix_images_src
          (if s.gitlab_mode.getD "gfm" = "gfm" then fix_ids html
           else html)) := by
  refine ⟨fun h => ?_, fun h => ?_⟩
  · simp [gitlab_parser_specific_postprocess, h]
  · simp [gitlab_parser_specific_postprocess, h]

/-- Witness for C10: with all settings unset the defaults apply, so the
`white` theme script is appended. -/
theorem c10_witness :
    gitlab_parser_specific_postprocess
      { gitlab_mode := none, html_simple := none,
        gitlab_highlight_theme := none } "<p>x</p>" =
      fix_images_src (fix_ids "<p>x</p>" ++ highlightThemeScript "white") := by
  have h := (c10_gitlab_highlight_script
    { gitlab_mode := none, html_simple := none,
      gitlab_highlight_theme := none } "<p>x</p>").1 rfl
  simpa using h
